import Mathlib

/-!
Verification of the KNX Python library (KnxTelegram.py, KnxComObject.py,
KnxDevice.py, KnxTPUart.py) against its natural-language specification.

The Python sources are shallowly embedded: the 23-byte telegram buffer is a
`List Nat` of its byte values, mutating methods become functions from the
buffer to a new buffer, Python operations that can raise (`list` indexing out
of range, item assignment on `None`/`int`, calling a function with a missing
argument) return `Option`, and loops whose progress is not structural are
given explicit fuel.
-/

namespace Knx

/-! ## KnxTelegram.py constants -/

def KNX_TELEGRAM_MAX_SIZE : Nat := 23
def KNX_TELEGRAM_PAYLOAD_MAX_SIZE : Nat := 16
def CONTROL_FIELD_DEFAULT_VALUE : Nat := 188
def CONTROL_FIELD_PRIORITY_MASK : Nat := 12
def ROUTING_FIELD_DEFAULT_VALUE : Nat := 225
def COMMAND_FIELD_LOW_COMMAND_MASK : Nat := 0xC0
def COMMAND_FIELD_HIGH_COMMAND_MASK : Nat := 0x03
def COMMAND_FIELD_LOW_DATA_MASK : Nat := 0x3F
def ROUTING_FIELD_PAYLOAD_LENGTH_MASK : Nat := 15
def KNX_TELEGRAM_HEADER_SIZE : Nat := 6
def KNX_TELEGRAM_LENGTH_OFFSET : Nat := 8

/-! ## KnxTelegram.py: the telegram codec

A telegram buffer is the list of the 23 byte values of the Python list
`_telegram`.  Python's `~x & 0xFF` on a nonnegative `x` is `255 - x % 256`,
and `x & ~m` on a nonnegative `x` clears the bits of `m`, i.e. `x - (x &&& m)`.
-/

/-- Python `~x & 0xFF` for a nonnegative integer `x`. -/
def pyNotMask (x : Nat) : Nat := 255 - x % 256

/-- Python `x & ~m` for nonnegative `x`: clears the bits of the mask `m`. -/
def pyAndNot (x m : Nat) : Nat := x - (x &&& m)

/-- KnxTelegram.clearTelegram: each loop iteration zeroes byte `i` and then
rewrites the control and routing defaults. -/
def clearStep (t : List Nat) (i : Nat) : List Nat :=
  ((t.set i 0).set 0 CONTROL_FIELD_DEFAULT_VALUE).set 5 ROUTING_FIELD_DEFAULT_VALUE

def clearTelegram (t : List Nat) : List Nat :=
  (List.range KNX_TELEGRAM_MAX_SIZE).foldl clearStep t

/-- KnxTelegram.__init__: `_telegram = [None] * 23` is a fresh buffer that the
constructor immediately overwrites via `clearTelegram` before any read; the
pre-clear `None` cells are modelled as 0. -/
def newTelegram : List Nat :=
  clearTelegram (List.replicate KNX_TELEGRAM_MAX_SIZE 0)

def getCommand (t : List Nat) : Nat :=
  ((t.getD 7 0 &&& COMMAND_FIELD_LOW_COMMAND_MASK) >>> 6) +
    ((t.getD 6 0 &&& COMMAND_FIELD_HIGH_COMMAND_MASK) <<< 2)

def getPayloadLength (t : List Nat) : Nat :=
  t.getD 5 0 &&& ROUTING_FIELD_PAYLOAD_LENGTH_MASK

def getFirstPayloadByte (t : List Nat) : Nat :=
  t.getD 7 0 &&& COMMAND_FIELD_LOW_DATA_MASK

def getTelegramLength (t : List Nat) : Nat :=
  KNX_TELEGRAM_LENGTH_OFFSET + getPayloadLength t

/-- KnxTelegram.getChecksum reads the fixed buffer index 8. -/
def getChecksum (t : List Nat) : Nat := t.getD 8 0

def getSourceAddress (t : List Nat) : Nat := t.getD 2 0 + (t.getD 1 0 <<< 8)

def getTargetAddress (t : List Nat) : Nat := t.getD 4 0 + (t.getD 3 0 <<< 8)

def setTargetAddress (t : List Nat) (addr : Nat) : List Nat :=
  (t.set 4 (addr &&& 0xFF)).set 3 ((addr >>> 8) &&& 0xFF)

def setPayloadLength (t : List Nat) (length : Nat) : List Nat :=
  let r := pyAndNot (t.getD 5 0) ROUTING_FIELD_PAYLOAD_LENGTH_MASK
  t.set 5 (r ||| (length &&& ROUTING_FIELD_PAYLOAD_LENGTH_MASK))

def setFirstPayloadByte (t : List Nat) (data : Nat) : List Nat :=
  let c := pyAndNot (t.getD 7 0) COMMAND_FIELD_LOW_DATA_MASK
  t.set 7 (c ||| (data &&& COMMAND_FIELD_LOW_DATA_MASK))

/-- KnxTelegram.setLongPayload: clamp `nbOfBytes` to 14, then
`telegram[i+8] = origin[i]` for `i < nbOfBytes`; indexing `origin` out of
range raises, hence `Option`. -/
def setLongPayload (t : List Nat) (origin : List Nat) (nbOfBytes : Nat) :
    Option (List Nat) :=
  let n := if nbOfBytes > KNX_TELEGRAM_PAYLOAD_MAX_SIZE - 2 then
    KNX_TELEGRAM_PAYLOAD_MAX_SIZE - 2 else nbOfBytes
  (List.range n).foldlM
    (fun d i => (origin.get? i).map (fun v => d.set (i + 8) v)) t

def calculateChecksum (t : List Nat) : Nat :=
  let indexChecksum := KNX_TELEGRAM_HEADER_SIZE + getPayloadLength t + 1
  pyNotMask ((List.range indexChecksum).foldl (fun x i => x ^^^ t.getD i 0) 0)

def updateChecksum (t : List Nat) : List Nat :=
  let indexChecksum := KNX_TELEGRAM_HEADER_SIZE + getPayloadLength t + 1
  t.set indexChecksum
    (pyNotMask ((List.range indexChecksum).foldl (fun x i => x ^^^ t.getD i 0) 0))

def isChecksumCorrect (t : List Nat) : Bool :=
  getChecksum t == calculateChecksum t

/-- KnxTelegram.copy: `dest._telegram[i] = self._telegram[i]` for
`i < self.getTelegramLength()`. -/
def telegramCopy (src dest : List Nat) : List Nat :=
  (List.range (getTelegramLength src)).foldl (fun d i => d.set i (src.getD i 0)) dest

def writeRawByte (t : List Nat) (data byteIndex : Nat) : List Nat :=
  t.set byteIndex data

def readRawByte (t : List Nat) (byteIndex : Nat) : Nat := t.getD byteIndex 0

/-- Python item assignment `d[i] = v` on a list: raises IndexError when `i` is
out of range. -/
def pySetItem (d : List Nat) (i v : Nat) : Option (List Nat) :=
  if i < d.length then some (d.set i v) else none

/-- KnxTelegram.getLongPayload: clamp `nbOfBytes` to 14, then
`destination[i] = self._telegram[i]` for `i` in `range(8, nbOfBytes + 8)`;
note the destination is written at the same indices 8.. that are read. -/
def getLongPayload (t : List Nat) (destination : List Nat) (nbOfBytes : Nat) :
    Option (List Nat) :=
  let n := if nbOfBytes > KNX_TELEGRAM_PAYLOAD_MAX_SIZE - 2 then
    KNX_TELEGRAM_PAYLOAD_MAX_SIZE - 2 else nbOfBytes
  (List.range' 8 n).foldlM (fun d i => pySetItem d i (t.getD i 0)) destination

/-! ## KnxComObject.py -/

def KNX_COM_OBJ_C_INDICATOR : Nat := 0x20
def KNX_COM_OBJ_R_INDICATOR : Nat := 0x10
def KNX_COM_OBJ_W_INDICATOR : Nat := 0x08
def KNX_COM_OBJ_T_INDICATOR : Nat := 0x04
def KNX_COM_OBJ_U_INDICATOR : Nat := 0x02
def KNX_COM_OBJ_I_INDICATOR : Nat := 0x01

def KNX_COM_OBJECT_OK : Nat := 0
def KNX_COM_OBJECT_ERROR : Nat := 255

def KNX_PRIORITY_NORMAL_VALUE : Nat := 12

/-- KnxComObject fields.  `_value` is Python `None` or an int, `_longValue`
is Python `None` (length 1) or a list of ints. -/
structure KnxComObject where
  addr : Nat
  dptId : Nat
  indicator : Nat
  length : Nat
  validity : Bool
  value : Option Nat
  longValue : Option (List Nat)
  deriving Repr, DecidableEq

/-- KnxComObject.__init__.  `lengthCalculation` reads the external KnxDPT
tables (module KnxDPT is not among the sources), so the constructor takes the
computed byte length directly; per the spec it is
`bit_length / 8 + 1 ∈ {1, ..., 15}`. -/
def mkKnxComObject (addr dptId indicator length : Nat) : KnxComObject :=
  { addr := addr
    dptId := dptId
    indicator := indicator
    length := length
    validity := if indicator &&& KNX_COM_OBJ_I_INDICATOR ≠ 0 then false else true
    value := none
    longValue := if length = 1 then none else some (List.replicate (length - 1) 0) }

/-- Argument of KnxComObject.updateValue: a KnxTelegram, an int, or any other
Python value (None, a plain list, ...) that matches neither isinstance test. -/
inductive UpdateArg where
  | tel (t : List Nat)
  | int (n : Nat)
  | pyNone
  | list (l : List (Option Nat))
  deriving Repr, DecidableEq

/-- KnxComObject.updateValue.  The outer `Option` is a raised exception; the
returned pair is the object after the call together with the Python return
value (`none` when the function falls off the end and returns Python None). -/
def updateValue (o : KnxComObject) (ori : UpdateArg) :
    Option (KnxComObject × Option Nat) :=
  match ori with
  | .tel t =>
    if getPayloadLength t ≠ o.length then some (o, some KNX_COM_OBJECT_ERROR)
    else if o.length = 1 then
      some ({ o with value := some (getFirstPayloadByte t), validity := true },
        some KNX_COM_OBJECT_OK)
    else if o.length = 2 then
      -- `ori.getLongPayload(self._value, 1)` assigns `self._value[8]`, but
      -- `_value` is None or an int: item assignment raises TypeError.
      none
    else
      match o.longValue with
      | none => none
      | some lv =>
        match getLongPayload t lv (o.length - 1) with
        | none => none
        | some lv' =>
          some ({ o with longValue := some lv', validity := true },
            some KNX_COM_OBJECT_OK)
  | .int n =>
    if o.length > 2 then some (o, some KNX_COM_OBJECT_ERROR)
    else some ({ o with value := some n, validity := true }, some KNX_COM_OBJECT_OK)
  | _ =>
    -- neither isinstance branch applies: no mutation, Python returns None
    some (o, none)

/-- KnxComObject.copyValue.  For length 1 sets the first payload byte from
`_value`; for length 2 it calls `dest.setLongPayload(self._value, 1)` whose
loop subscripts `_value` (None or an int): TypeError; for longer objects it
copies `_longValue`. -/
def copyValue (o : KnxComObject) (dest : List Nat) : Option (List Nat) :=
  if o.length = 1 then
    match o.value with
    | some v => some (setFirstPayloadByte dest v)
    | none => none    -- `data & 0x3F` on None inside setFirstPayloadByte: TypeError
  else if o.length = 2 then none
  else
    match o.longValue with
    | none => none
    | some lv => setLongPayload dest lv (o.length - 1)

end Knx

namespace Knx

/-- A cleared telegram whose payload-length field is set to 2 (routing byte
0xE2): the checksum written by `updateChecksum` then lives at index 9, while
`getChecksum` always reads index 8. -/
def c1FailingTelegram : List Nat := setPayloadLength newTelegram 2

/-- C1: for the telegram with payload length 2, `updateChecksum` writes the
checksum byte 161 at offset 6+2+1 = 9, but `isChecksumCorrect` compares the
stale byte at the fixed offset 8 against `calculateChecksum` and returns
false, refuting the round-trip `verify_checksum(update_checksum(t)) = true`. -/
theorem checksum_roundtrip_fails_at_payload_length_two :
    isChecksumCorrect (updateChecksum c1FailingTelegram) = false ∧
      updateChecksum c1FailingTelegram =
        [188, 0, 0, 0, 0, 226, 0, 0, 0, 161, 0, 0, 0, 0, 0, 0, 0, 0, 0, 0, 0, 0, 0] ∧
      getChecksum (updateChecksum c1FailingTelegram) = 0 ∧
      calculateChecksum (updateChecksum c1FailingTelegram) = 161 := by
  refine ⟨by decide, by decide, by decide, by decide⟩

/-- C2: com objects of length 2 and of length 3 receiving a telegram whose
payload length matches their own length: `updateValue` raises instead of
storing the value (length 2 subscripts the `None`-valued `_value`; length 3
has `getLongPayload` write `destination[8]` into the 2-element `_longValue`),
while a length-1 object does succeed.  The exception is the `none` result. -/
theorem updateValue_crashes_for_lengths_two_and_three :
    updateValue (mkKnxComObject 1 5 KNX_COM_OBJ_W_INDICATOR 2)
        (.tel (setPayloadLength newTelegram 2)) = none ∧
      updateValue (mkKnxComObject 1 5 KNX_COM_OBJ_W_INDICATOR 3)
        (.tel (setPayloadLength newTelegram 3)) = none ∧
      getPayloadLength (setPayloadLength newTelegram 2) = 2 ∧
      getPayloadLength (setPayloadLength newTelegram 3) = 3 := by
  refine ⟨by decide, by decide, by decide, by decide⟩

/-! ## KnxDevice.py: ActionRingBuffer -/

def ACTIONS_QUEUE_SIZE : Nat := 16

/-- ActionRingBuffer state: `_buffer` cells start as Python `None`. -/
structure ActionRingBuffer (α : Type) where
  head : Nat
  tail : Nat
  buffer : List (Option α)
  size : Nat
  elementsCurrentNb : Nat
  deriving Repr, DecidableEq

namespace ActionRingBuffer

/-- ActionRingBuffer.__init__(size). -/
def init (α : Type) (size : Nat) : ActionRingBuffer α :=
  ⟨0, 0, List.replicate size none, size, 0⟩

def incrementHead {α} (rb : ActionRingBuffer α) : ActionRingBuffer α :=
  { rb with head := (rb.head + 1) % rb.size }

def incrementTail {α} (rb : ActionRingBuffer α) : ActionRingBuffer α :=
  { rb with tail := (rb.tail + 1) % rb.size }

/-- ActionRingBuffer.append: when full, advance the head (drop the oldest)
instead of growing the count, then write at the tail and advance it. -/
def append {α} (rb : ActionRingBuffer α) (data : α) : ActionRingBuffer α :=
  let rb1 := if rb.elementsCurrentNb = rb.size then incrementHead rb
    else { rb with elementsCurrentNb := rb.elementsCurrentNb + 1 }
  incrementTail { rb1 with buffer := rb1.buffer.set rb1.tail (some data) }

/-- ActionRingBuffer.pop: Python returns the sentinel -1 on an empty buffer,
modelled as `none`; otherwise the cell at the head is returned and the head
advanced. -/
def pop {α} (rb : ActionRingBuffer α) : Option α × ActionRingBuffer α :=
  if rb.elementsCurrentNb = 0 then (none, rb)
  else (rb.buffer.getD rb.head none,
    { incrementHead rb with elementsCurrentNb := rb.elementsCurrentNb - 1 })

/-- Appending a whole list of items in order. -/
def appendAll {α} (rb : ActionRingBuffer α) (l : List α) : ActionRingBuffer α :=
  l.foldl append rb

/-- The outputs of `n` successive pops. -/
def popList {α} (rb : ActionRingBuffer α) : Nat → List (Option α)
  | 0 => []
  | n + 1 => (pop rb).1 :: popList (pop rb).2 n

/-- Well-formedness of a capacity-16 ring buffer: the tail always sits
`elementsCurrentNb` cells (mod 16) after the head. -/
def Inv {α} (rb : ActionRingBuffer α) : Prop :=
  rb.size = 16 ∧ rb.buffer.length = 16 ∧ rb.head < 16 ∧
    rb.elementsCurrentNb ≤ 16 ∧ rb.tail = (rb.head + rb.elementsCurrentNb) % 16

/-- The queue a ring buffer represents: the `elementsCurrentNb` cells starting
at the head, oldest first. -/
def absQueue {α} (rb : ActionRingBuffer α) : List (Option α) :=
  (List.range rb.elementsCurrentNb).map
    (fun k => rb.buffer.getD ((rb.head + k) % 16) none)

theorem inv_init (α : Type) : Inv (init α 16) := by
  refine ⟨rfl, by simp [init], by norm_num [init], by norm_num [init], rfl⟩

theorem absQueue_init (α : Type) : absQueue (init α 16) = [] := by
  simp [absQueue, init]

theorem getD_set_self {α} (l : List (Option α)) (i : Nat) (v : Option α)
    (h : i < l.length) : (l.set i v).getD i none = v := by
  simp [List.getD_eq_getElem?_getD, List.getElem?_set_self, h]

theorem getD_set_ne {α} (l : List (Option α)) (i j : Nat) (v : Option α)
    (h : i ≠ j) : (l.set i v).getD j none = l.getD j none := by
  simp [List.getD_eq_getElem?_getD, List.getElem?_set_ne h]

theorem length_absQueue {α} (rb : ActionRingBuffer α) :
    (absQueue rb).length = rb.elementsCurrentNb := by
  simp [absQueue]

theorem append_full {α} (hd tl : Nat) (buf : List (Option α)) (x : α) :
    append ⟨hd, tl, buf, 16, 16⟩ x =
      ⟨(hd + 1) % 16, (tl + 1) % 16, buf.set tl (some x), 16, 16⟩ := by
  simp [append, incrementHead, incrementTail]

theorem append_notFull {α} (hd tl : Nat) (buf : List (Option α)) (cnt : Nat)
    (x : α) (h : cnt ≠ 16) :
    append ⟨hd, tl, buf, 16, cnt⟩ x =
      ⟨hd, (tl + 1) % 16, buf.set tl (some x), 16, cnt + 1⟩ := by
  simp [append, incrementHead, incrementTail, h]

theorem inv_append {α} (rb : ActionRingBuffer α) (x : α) (h : Inv rb) :
    Inv (append rb x) := by
  obtain ⟨hd, tl, buf, sz, cnt⟩ := rb
  obtain ⟨hs, hb, hh, hc, ht⟩ := h
  simp only at hs hb hh hc ht
  subst hs
  by_cases hfull : cnt = 16
  · subst hfull
    rw [append_full]
    refine ⟨rfl, by simpa using hb, ?_, ?_, ?_⟩ <;> dsimp only [Inv] <;> omega
  · rw [append_notFull _ _ _ _ _ hfull]
    refine ⟨rfl, by simpa using hb, ?_, ?_, ?_⟩ <;> dsimp only [Inv] <;> omega

theorem count_append_full {α} (rb : ActionRingBuffer α) (x : α) (h : Inv rb)
    (hfull : rb.elementsCurrentNb = 16) :
    (append rb x).elementsCurrentNb = 16 := by
  obtain ⟨hd, tl, buf, sz, cnt⟩ := rb
  obtain ⟨hs, hb, hh, hc, ht⟩ := h
  simp only at hs hfull
  subst hs
  subst hfull
  rw [append_full]

theorem count_append_notFull {α} (rb : ActionRingBuffer α) (x : α) (h : Inv rb)
    (hfull : rb.elementsCurrentNb ≠ 16) :
    (append rb x).elementsCurrentNb = rb.elementsCurrentNb + 1 := by
  obtain ⟨hd, tl, buf, sz, cnt⟩ := rb
  obtain ⟨hs, hb, hh, hc, ht⟩ := h
  simp only at hs hfull ⊢
  subst hs
  rw [append_notFull _ _ _ _ _ hfull]

theorem absQueue_append_full {α} (rb : ActionRingBuffer α) (x : α) (h : Inv rb)
    (hfull : rb.elementsCurrentNb = 16) :
    absQueue (append rb x) = (absQueue rb).drop 1 ++ [some x] := by
  obtain ⟨hd, tl, buf, sz, cnt⟩ := rb
  obtain ⟨hs, hb, hh, hc, ht⟩ := h
  simp only at hs hb hh hc ht hfull
  subst hs
  subst hfull
  have htail : tl = hd := by omega
  subst htail
  rw [append_full]
  simp only [absQueue]
  apply List.ext_getElem
  · simp
  · intro j h1 h2
    simp only [List.getElem_map, List.getElem_range]
    have hj : j < 16 := by simpa using h1
    by_cases hj15 : j < 15
    · rw [List.getElem_append_left (by simp; omega)]
      rw [List.getElem_drop]
      simp only [List.getElem_map, List.getElem_range]
      rw [getD_set_ne _ _ _ _ (by omega)]
      congr 1
      omega
    · have hj' : j = 15 := by omega
      subst hj'
      rw [List.getElem_append_right (by simp)]
      have hidx : ((tl + 1) % 16 + 15) % 16 = tl := by omega
      simp only [hidx]
      rw [getD_set_self _ _ _ (by omega)]
      simp

theorem absQueue_append_notFull {α} (rb : ActionRingBuffer α) (x : α)
    (h : Inv rb) (hfull : rb.elementsCurrentNb ≠ 16) :
    absQueue (append rb x) = absQueue rb ++ [some x] := by
  obtain ⟨hd, tl, buf, sz, cnt⟩ := rb
  obtain ⟨hs, hb, hh, hc, ht⟩ := h
  simp only at hs hb hh hc ht hfull
  subst hs
  rw [append_notFull _ _ _ _ _ hfull]
  simp only [absQueue]
  rw [List.range_succ, List.map_append]
  congr 1
  · apply List.map_congr_left
    intro k hk
    have hk' : k < cnt := List.mem_range.mp hk
    exact getD_set_ne _ _ _ _ (by omega)
  · simp only [List.map_cons, List.map_nil]
    congr 1
    rw [← ht]
    exact getD_set_self _ _ _ (by omega)

theorem pop_nonEmpty {α} (hd tl : Nat) (buf : List (Option α)) (cnt : Nat)
    (h : cnt ≠ 0) :
    pop ⟨hd, tl, buf, 16, cnt⟩ =
      (buf.getD hd none, ⟨(hd + 1) % 16, tl, buf, 16, cnt - 1⟩) := by
  simp [pop, incrementHead, h]

theorem pop_spec {α} (rb : ActionRingBuffer α) (h : Inv rb)
    (hne : rb.elementsCurrentNb ≠ 0) :
    absQueue rb = (pop rb).1 :: absQueue (pop rb).2 ∧ Inv (pop rb).2 ∧
      (pop rb).2.elementsCurrentNb = rb.elementsCurrentNb - 1 := by
  obtain ⟨hd, tl, buf, sz, cnt⟩ := rb
  obtain ⟨hs, hb, hh, hc, ht⟩ := h
  simp only at hs hb hh hc ht hne
  subst hs
  rw [pop_nonEmpty _ _ _ _ hne]
  refine ⟨?_, ⟨rfl, by simpa using hb, ?_, ?_, ?_⟩, rfl⟩
  · simp only [absQueue]
    obtain ⟨m, rfl⟩ : ∃ m, cnt = m + 1 := ⟨cnt - 1, by omega⟩
    rw [List.range_succ_eq_map, List.map_cons]
    simp only [Nat.add_sub_cancel]
    congr 1
    · congr 1
      omega
    · rw [List.map_map]
      apply List.map_congr_left
      intro k hk
      have hk' : k < m := List.mem_range.mp hk
      simp only [Function.comp]
      congr 1
      omega
  all_goals dsimp only
  all_goals omega

theorem popList_eq_absQueue {α} :
    ∀ (n : Nat) (rb : ActionRingBuffer α), Inv rb →
      rb.elementsCurrentNb = n → popList rb n = absQueue rb
  | 0, rb, _, hn => by
    simp [popList, absQueue, hn]
  | n + 1, rb, h, hn => by
    obtain ⟨habs, hinv, hcount⟩ := pop_spec rb h (by omega)
    rw [popList, popList_eq_absQueue n (pop rb).2 hinv (by omega), habs]

/-- State after any sequence of appends starting from the fresh capacity-16
buffer: well-formed, holding the last (up to) 16 appended items in order. -/
theorem appendAll_spec {α} (l : List α) :
    Inv (appendAll (init α 16) l) ∧
      (appendAll (init α 16) l).elementsCurrentNb = min l.length 16 ∧
      absQueue (appendAll (init α 16) l) = (l.drop (l.length - 16)).map some := by
  induction l using List.reverseRecOn with
  | nil =>
    exact ⟨inv_init α, by simp [appendAll, init], by simp [appendAll, absQueue_init α]⟩
  | append_singleton l x ih =>
    obtain ⟨hinv, hcnt, habs⟩ := ih
    have hstep : appendAll (init α 16) (l ++ [x]) =
        append (appendAll (init α 16) l) x := by
      simp [appendAll, List.foldl_append]
    rw [hstep]
    by_cases hge : 16 ≤ l.length
    · have hfull : (appendAll (init α 16) l).elementsCurrentNb = 16 := by omega
      refine ⟨inv_append _ _ hinv, ?_, ?_⟩
      · rw [count_append_full _ _ hinv hfull]
        simp
        omega
      · rw [absQueue_append_full _ _ hinv hfull, habs]
        rw [← List.map_drop, List.drop_drop]
        simp only [List.length_append, List.length_singleton]
        have h1 : l.length - 16 + 1 = l.length - 15 := by omega
        have h2 : l.length + 1 - 16 = l.length - 15 := by omega
        rw [h1, h2, List.drop_append_of_le_length (by omega)]
        simp
    · have hnotfull : (appendAll (init α 16) l).elementsCurrentNb ≠ 16 := by
        omega
      refine ⟨inv_append _ _ hinv, ?_, ?_⟩
      · rw [count_append_notFull _ _ hinv hnotfull]
        simp
        omega
      · rw [absQueue_append_notFull _ _ hinv hnotfull, habs]
        have h1 : l.length - 16 = 0 := by omega
        have h2 : l.length + 1 - 16 = 0 := by omega
        simp [h1, h2]

end ActionRingBuffer

/-- C3: after any sequence of at least 16 appends into the fresh capacity-16
action ring buffer, the element count is exactly 16 and 16 successive pops
return exactly the last 16 appended items, oldest first; each append to a
full buffer has dropped the then-oldest element. -/
theorem ringBuffer_keeps_last_sixteen {α} (l : List α) (h : 16 ≤ l.length) :
    (ActionRingBuffer.appendAll (ActionRingBuffer.init α 16) l).elementsCurrentNb
        = 16 ∧
      ActionRingBuffer.popList
          (ActionRingBuffer.appendAll (ActionRingBuffer.init α 16) l) 16 =
        (l.drop (l.length - 16)).map some := by
  obtain ⟨hinv, hcnt, habs⟩ := ActionRingBuffer.appendAll_spec (α := α) l
  have h16 : (ActionRingBuffer.appendAll (ActionRingBuffer.init α 16) l).elementsCurrentNb = 16 := by
    omega
  refine ⟨h16, ?_⟩
  rw [ActionRingBuffer.popList_eq_absQueue 16 _ hinv h16, habs]

/-- Witness for C3: appending 0..19 leaves count 16 and pops 4..19. -/
theorem ringBuffer_keeps_last_sixteen_witness :
    (ActionRingBuffer.appendAll (ActionRingBuffer.init Nat 16)
        (List.range 20)).elementsCurrentNb = 16 ∧
      ActionRingBuffer.popList
          (ActionRingBuffer.appendAll (ActionRingBuffer.init Nat 16)
            (List.range 20)) 16 =
        ((List.range 20).drop 4).map some := by
  have h := ringBuffer_keeps_last_sixteen (List.range 20) (by decide)
  simpa using h

/-! ## KnxDevice.py: write and the WRITE-action dispatch -/

def KNX_DEVICE_OK : Nat := 0
def KNX_DEVICE_ERROR : Nat := 255
def EIB_READ_REQUEST : Nat := 0
def EIB_WRITE_REQUEST : Nat := 1
def EIB_RESPONSE_REQUEST : Nat := 2

/-- tx_action fields, all Python `None` until assigned. -/
structure TxAction where
  command : Option Nat
  index : Option Nat
  byteValue : Option Nat
  valuePtr : Option (List (Option Nat))
  deriving Repr, DecidableEq

def txActionInit : TxAction := ⟨none, none, none, none⟩

/-- The Python value handed to KnxDevice.write: an int or a list of bytes. -/
inductive PyValue where
  | int (n : Nat)
  | list (l : List Nat)
  deriving Repr, DecidableEq

namespace KnxDevice

/-- KnxDevice.write: builds the WRITE action for the object at `objectIndex`.
For length ≤ 2 the value is masked to a byte (`value & 0xFF` raises on a
list); for length > 2 a fresh list `[None] * (length - 1)` is stored in
`valuePtr` and `value` itself is never read. -/
def write (objs : List KnxComObject) (objectIndex : Nat) (value : PyValue) :
    Option (TxAction × Nat) := do
  let o ← objs.get? objectIndex
  let action ←
    if o.length ≤ 2 then
      match value with
      | .int n => some { txActionInit with byteValue := some (n &&& 0xFF) }
      | .list _ => none    -- `value & 0xFF` on a list: TypeError
    else
      some { txActionInit with
        valuePtr := some (List.replicate (o.length - 1) (none : Option Nat)) }
  some ({ action with command := some EIB_WRITE_REQUEST, index := some objectIndex },
    KNX_DEVICE_OK)

/-- The EIB_WRITE_REQUEST arm of KnxDevice.task (the local-object update): for
length ≤ 2 it calls `updateValue(action.byteValue)`, otherwise
`updateValue(action.valuePtr)`.  The subsequent T-indicator telegram emission
(source lines 211-219) reads the object state this arm leaves behind. -/
def dispatchWriteAction (objs : List KnxComObject) (a : TxAction) :
    Option (List KnxComObject) := do
  let idx ← a.index
  let o ← objs.get? idx
  let arg : UpdateArg :=
    if o.length ≤ 2 then
      match a.byteValue with
      | some n => UpdateArg.int n
      | none => UpdateArg.pyNone
    else
      match a.valuePtr with
      | some l => UpdateArg.list l
      | none => UpdateArg.pyNone
  let r ← updateValue o arg
  some (objs.set idx r.1)

end KnxDevice

/-- A length-3 com object with the C and T indicators. -/
def c7Obj : KnxComObject :=
  mkKnxComObject 7 9 (KNX_COM_OBJ_C_INDICATOR + KNX_COM_OBJ_T_INDICATOR) 3

/-- C7: writing the value [1, 2] to a length-3 com object enqueues a WRITE
action whose byte-vector slot is the fresh list [None, None] -- the given
value is never copied in -- and write still reports success (0); when the
action is later dispatched, `updateValue` receives a plain list, matches
neither isinstance branch, and leaves the object (and so its value) unchanged,
contradicting the claimed value delivery. -/
theorem write_never_carries_long_values :
    KnxDevice.write [c7Obj] 0 (.list [1, 2]) =
        some (⟨some EIB_WRITE_REQUEST, some 0, none, some [none, none]⟩,
          KNX_DEVICE_OK) ∧
      KnxDevice.dispatchWriteAction [c7Obj]
          ⟨some EIB_WRITE_REQUEST, some 0, none, some [none, none]⟩ =
        some [c7Obj] ∧
      updateValue c7Obj (.list [none, none]) = some (c7Obj, none) := by
  refine ⟨by decide, by decide, by decide⟩

/-! ## KnxTPUart.py constants -/

def RX_RESET : Nat := 0
def RX_STOPPED : Nat := 1
def RX_INIT : Nat := 2
def RX_IDLE_WAITING_FOR_CTRL_FIELD : Nat := 3
def RX_EIB_TELEGRAM_RECEPTION_STARTED : Nat := 4
def RX_EIB_TELEGRAM_RECEPTION_ADDRESSED : Nat := 5
def RX_EIB_TELEGRAM_RECEPTION_LENGTH_INVALID : Nat := 6
def RX_EIB_TELEGRAM_RECEPTION_NOT_ADDRESSED : Nat := 7

def TX_RESET : Nat := 0
def TX_STOPPED : Nat := 1
def TX_INIT : Nat := 2
def TX_IDLE : Nat := 3
def TX_TELEGRAM_SENDING_ONGOING : Nat := 4
def TX_WAITING_ACK : Nat := 5

def ACK_RESPONSE : Nat := 0
def NACK_RESPONSE : Nat := 1
def NO_ANSWER_TIMEOUT : Nat := 2
def TPUART_RESET_RESPONSE : Nat := 3

def TPUART_EVENT_RESET : Nat := 0
def TPUART_EVENT_RECEIVED_EIB_TELEGRAM : Nat := 1
def TPUART_EVENT_EIB_TELEGRAM_RECEPTION_ERROR : Nat := 2
def TPUART_EVENT_STATE_INDICATION : Nat := 3

def TPUART_DATA_CONFIRM_SUCCESS : Nat := 0x8B
def TPUART_RESET_INDICATION : Nat := 0x03
def TPUART_STATE_INDICATION : Nat := 0x07
def TPUART_DATA_CONFIRM_FAILED : Nat := 0x0B
def TPUART_DATA_END_REQ : Nat := 0x40
def TPUART_DATA_START_CONTINUE_REQ : Nat := 0x80
def TPUART_STATE_INDICATION_MASK : Nat := 0x07

def EIB_CONTROL_FIELD_PATTERN_MASK : Nat := 211
def EIB_CONTROL_FIELD_VALID_PATTERN : Nat := 144

/-! ## KnxTPUart.py: RxTask inter-byte-timeout step (source lines 221-238) -/

/-- Result of the timeout part of KnxTPUart.RxTask: the new RX state, the
receive-slot telegram, the published addressed-com-object index, and the
event-callback invocations made. -/
structure RxTimeoutStep where
  rxState : Nat
  receivedTelegram : List Nat
  publishedIndex : Option Nat
  evts : List Nat
  deriving Repr, DecidableEq

/-- The inter-byte-timeout part of KnxTPUart.RxTask: when the RX state is at
least RECEPTION_STARTED and over 2000 us passed since the last byte, the
pending reception is finalised.  In the ADDRESSED state the assembled telegram
is copied to the receive slot and RECEIVED_EIB_TELEGRAM fired only when its
checksum verifies; the `else` on source line 234 belongs to the outer
`if`/`elif` chain, so a failed checksum fires nothing. -/
def rxTimeoutTask (rxState : Nat) (telegram receivedTelegram : List Nat)
    (addressedComObjectIndex : Nat) (nowMicros lastByteRxMicros : Nat) :
    RxTimeoutStep :=
  if rxState ≥ RX_EIB_TELEGRAM_RECEPTION_STARTED then
    if nowMicros - lastByteRxMicros > 2000 then
      if rxState = RX_EIB_TELEGRAM_RECEPTION_LENGTH_INVALID then
        ⟨RX_IDLE_WAITING_FOR_CTRL_FIELD, receivedTelegram, none,
          [TPUART_EVENT_EIB_TELEGRAM_RECEPTION_ERROR]⟩
      else if rxState = RX_EIB_TELEGRAM_RECEPTION_ADDRESSED then
        if isChecksumCorrect telegram then
          ⟨RX_IDLE_WAITING_FOR_CTRL_FIELD, telegramCopy telegram receivedTelegram,
            some addressedComObjectIndex, [TPUART_EVENT_RECEIVED_EIB_TELEGRAM]⟩
        else
          ⟨RX_IDLE_WAITING_FOR_CTRL_FIELD, receivedTelegram, none, []⟩
      else
        ⟨RX_IDLE_WAITING_FOR_CTRL_FIELD, receivedTelegram, none,
          [TPUART_EVENT_EIB_TELEGRAM_RECEPTION_ERROR]⟩
    else ⟨rxState, receivedTelegram, none, []⟩
  else ⟨rxState, receivedTelegram, none, []⟩

/-! ## KnxTPUart.py: RxTask byte dispatch in the idle state (lines 244-271) -/

/-- Result of handling one incoming byte while the RX state is
IDLE_WAITING_FOR_CTRL_FIELD: new RX and TX states, the raw-byte write into
the assembly telegram (value, index), the new `_readBytesNb`, the recorded
state indication, and the ack and event callback invocations. -/
structure IdleByteStep where
  rxState : Nat
  txState : Nat
  telegramWrite : Option (Nat × Nat)
  readBytesNb : Option Nat
  stateIndication : Option Nat
  acks : List Nat
  evts : List Nat
  deriving Repr, DecidableEq

/-- The `rx.state == RX_IDLE_WAITING_FOR_CTRL_FIELD` arm of KnxTPUart.RxTask
byte handling, given the current TX state and the incoming byte. -/
def rxTaskIdleByte (txState : Nat) (b : Nat) : IdleByteStep :=
  if b &&& EIB_CONTROL_FIELD_PATTERN_MASK = EIB_CONTROL_FIELD_VALID_PATTERN then
    ⟨RX_EIB_TELEGRAM_RECEPTION_STARTED, txState, some (b, 0), some 1, none, [], []⟩
  else if b = TPUART_DATA_CONFIRM_SUCCESS then
    if txState = TX_WAITING_ACK then
      ⟨RX_IDLE_WAITING_FOR_CTRL_FIELD, TX_IDLE, none, none, none, [ACK_RESPONSE], []⟩
    else
      ⟨RX_IDLE_WAITING_FOR_CTRL_FIELD, txState, none, none, none, [], []⟩
  else if b = TPUART_RESET_INDICATION then
    ⟨RX_STOPPED, TX_STOPPED, none, none, none,
      (if txState = TX_TELEGRAM_SENDING_ONGOING ∨ txState = TX_WAITING_ACK then
        [TPUART_RESET_RESPONSE] else []),
      [TPUART_EVENT_RESET]⟩
  else if b &&& TPUART_STATE_INDICATION_MASK = TPUART_STATE_INDICATION then
    ⟨RX_IDLE_WAITING_FOR_CTRL_FIELD, txState, none, none, some b,
      [], [TPUART_EVENT_STATE_INDICATION]⟩
  else if b = TPUART_DATA_CONFIRM_FAILED then
    if txState = TX_WAITING_ACK then
      ⟨RX_IDLE_WAITING_FOR_CTRL_FIELD, TX_IDLE, none, none, none, [NACK_RESPONSE], []⟩
    else
      ⟨RX_IDLE_WAITING_FOR_CTRL_FIELD, txState, none, none, none, [], []⟩
  else
    ⟨RX_IDLE_WAITING_FOR_CTRL_FIELD, txState, none, none, none, [], []⟩

/-! ## KnxTPUart.py: TxTask (lines 297-326) -/

/-- The mutable state KnxTPUart.TxTask reads and writes. -/
structure TxTaskState where
  txState : Nat
  rxState : Nat
  nbRemainingBytes : Nat
  txByteIndex : Nat
  sentTelegram : List Nat
  sentMessageTimeMillisec : Nat
  deriving Repr, DecidableEq

/-- KnxTPUart.TxTask: first the 500 ms ACK timeout check, then (when a send
is ongoing and RX is not mid-reception) the emission of the next telegram
byte prefixed by its service byte.  Returns the new state, the ack-callback
invocations, and the two-byte serial writes. -/
def TxTask (s : TxTaskState) (nowMillis : Nat) :
    TxTaskState × List Nat × List (Nat × Nat) :=
  let step1 :=
    if s.txState = TX_WAITING_ACK ∧ nowMillis - s.sentMessageTimeMillisec > 500 then
      ({ s with txState := TX_IDLE }, [NO_ANSWER_TIMEOUT])
    else (s, [])
  let s1 := step1.1
  if s1.txState = TX_TELEGRAM_SENDING_ONGOING then
    if s1.rxState ≠ RX_EIB_TELEGRAM_RECEPTION_STARTED then
      if s1.nbRemainingBytes = 1 then
        ({ s1 with txState := TX_WAITING_ACK, sentMessageTimeMillisec := nowMillis },
          step1.2,
          [(TPUART_DATA_END_REQ + s1.txByteIndex,
            s1.sentTelegram.getD s1.txByteIndex 0)])
      else
        ({ s1 with txByteIndex := s1.txByteIndex + 1, nbRemainingBytes := s1.nbRemainingBytes - 1 },
          step1.2,
          [(TPUART_DATA_START_CONTINUE_REQ + s1.txByteIndex,
            s1.sentTelegram.getD s1.txByteIndex 0)])
    else (s1, step1.2, [])
  else (s1, step1.2, [])

/-- C6: the 2000 us timeout firing in RECEPTION_ADDRESSED on an assembled
telegram with a bad checksum (here the default frame with payload length 2,
whose stored checksum byte 0 differs from the computed 161): the RX state
returns to IDLE_WAITING_FOR_CTRL_FIELD and the receive slot is untouched, but
no event at all is fired -- the `else` that should fire RECEPTION_ERROR hangs
off the outer state dispatch, not the checksum test -- contradicting the
claimed RECEPTION_ERROR callback. -/
theorem addressed_timeout_bad_checksum_fires_no_event :
    rxTimeoutTask RX_EIB_TELEGRAM_RECEPTION_ADDRESSED c1FailingTelegram
        newTelegram 4 3000 0 =
      ⟨RX_IDLE_WAITING_FOR_CTRL_FIELD, newTelegram, none, []⟩ ∧
      isChecksumCorrect c1FailingTelegram = false := by
  refine ⟨by decide, by decide⟩

/-- C8: with TX in WAITING_ACK, an incoming 0x8B in the idle RX state invokes
the ack callback with ACK_RESPONSE and idles TX; 0x0B instead yields
NACK_RESPONSE; and a TxTask run more than 500 ms after the final byte's send
timestamp yields NO_ANSWER_TIMEOUT and idles TX. -/
theorem ack_nack_timeout_handling (txState : Nat) (s : TxTaskState)
    (nowMillis : Nat) (hwait : txState = TX_WAITING_ACK)
    (hs : s.txState = TX_WAITING_ACK)
    (htime : nowMillis - s.sentMessageTimeMillisec > 500) :
    ((rxTaskIdleByte txState 0x8B).acks = [ACK_RESPONSE] ∧
        (rxTaskIdleByte txState 0x8B).txState = TX_IDLE) ∧
      ((rxTaskIdleByte txState 0x0B).acks = [NACK_RESPONSE] ∧
        (rxTaskIdleByte txState 0x0B).txState = TX_IDLE) ∧
      ((TxTask s nowMillis).2.1 = [NO_ANSWER_TIMEOUT] ∧
        (TxTask s nowMillis).1.txState = TX_IDLE) := by
  subst hwait
  refine ⟨⟨by decide, by decide⟩, ⟨by decide, by decide⟩, ?_, ?_⟩ <;>
    simp [TxTask, hs, htime, TX_WAITING_ACK, TX_IDLE,
      TX_TELEGRAM_SENDING_ONGOING, NO_ANSWER_TIMEOUT]

/-- Witness for C8 at TX state 5, a concrete TxTask state and time 1000 ms. -/
theorem ack_nack_timeout_handling_witness :
    ((rxTaskIdleByte TX_WAITING_ACK 0x8B).acks = [ACK_RESPONSE] ∧
        (rxTaskIdleByte TX_WAITING_ACK 0x8B).txState = TX_IDLE) ∧
      ((rxTaskIdleByte TX_WAITING_ACK 0x0B).acks = [NACK_RESPONSE] ∧
        (rxTaskIdleByte TX_WAITING_ACK 0x0B).txState = TX_IDLE) ∧
      ((TxTask ⟨TX_WAITING_ACK, RX_IDLE_WAITING_FOR_CTRL_FIELD, 0, 0, [], 0⟩
            1000).2.1 = [NO_ANSWER_TIMEOUT] ∧
        (TxTask ⟨TX_WAITING_ACK, RX_IDLE_WAITING_FOR_CTRL_FIELD, 0, 0, [], 0⟩
            1000).1.txState = TX_IDLE) :=
  ack_nack_timeout_handling TX_WAITING_ACK
    ⟨TX_WAITING_ACK, RX_IDLE_WAITING_FOR_CTRL_FIELD, 0, 0, [], 0⟩ 1000
    rfl rfl (by decide)

/-! ## KnxTPUart.py: isCom, attachComObjectsList, isAddressedAssigned -/

/-- isCom(objectList, index): truthiness of `indicator & 0x20`; indexing out
of range raises. -/
def isCom (objectList : List KnxComObject) (index : Nat) : Option Bool :=
  (objectList.get? index).map
    (fun o => o.indicator &&& KNX_COM_OBJ_C_INDICATOR ≠ 0)

/-- First attach loop: count the C-flagged objects among the first
`listSize`. -/
def countComObjects (objs : List KnxComObject) (listSize : Nat) : Option Nat :=
  (List.range listSize).foldlM
    (fun nb i => (isCom objs i).map (fun b => if b then nb + 1 else nb)) 0

/-- Second attach loop (the de-duplication pass): for every non-C object `i`
it scans all `j`; the guard evaluates `isCom(j)` -- the module-level `isCom`
called with its second argument missing -- as its third conjunct, so any
reached pair with `i ≠ j` and differing addresses raises TypeError. -/
def dedupLoop (objs : List KnxComObject) (listSize nb : Nat) : Option Nat :=
  (List.range listSize).foldlM
    (fun acc i => do
      let ci ← isCom objs i
      if ci then pure acc
      else
        (List.range listSize).foldlM
          (fun acc2 j => do
            let oi ← objs.get? i
            let oj ← objs.get? j
            if i ≠ j ∧ oj.addr ≠ oi.addr then
              none    -- `isCom(j)`: missing argument, TypeError
            else pure acc2)
          acc)
    nb

/-- Third attach loop: builds `_orderedIndexTable` (initially `[None] * nb`)
with the selection `isCom(list, j) and list[j].addr >= minMin and
list[i].addr <= foundMin` (note `list[i]`, as in the source), then
`minMin = foundMin + 1` and `foundMin = 0xFF` after each row. -/
def buildOrderedTable (objs : List KnxComObject) (listSize nb : Nat) :
    Option (List (Option Nat)) := do
  let r ← (List.range nb).foldlM
    (fun (st : Nat × Nat × List (Option Nat)) i => do
      let minMin := st.1
      let r2 ← (List.range listSize).foldlM
        (fun (st2 : Nat × List (Option Nat)) j => do
          let cj ← isCom objs j
          let oj ← objs.get? j
          let oi ← objs.get? i
          if cj ∧ oj.addr ≥ minMin ∧ oi.addr ≤ st2.1 then
            pure (oj.addr, st2.2.set i (some j))
          else pure st2)
        (st.2.1, st.2.2)
      pure (r2.1 + 1, 0xFF, r2.2))
    (0x0000, 0xFFFF, List.replicate nb (none : Option Nat))
  pure r.2.2

/-- KnxTPUart.attachComObjectsList after the RX/TX INIT-state guard (the
claims concern a successful attach): count the C-flagged objects, run the
de-duplication pass, build the ordered index table.  Returns
(`_assignedComObjectsNb`, `_orderedIndexTable`); the early-return paths leave
the table `None`. -/
def attachComObjectsList (objs : List KnxComObject) (listSize : Nat) :
    Option (Nat × Option (List (Option Nat))) := do
  if listSize = 0 then pure (0, none)
  else do
    let nb ← countComObjects objs listSize
    if nb = 0 then pure (nb, none)
    else do
      let nb2 ← dedupLoop objs listSize nb
      let table ← buildOrderedTable objs listSize nb2
      pure (nb2, some table)

/-- The halving-count loop of isAddressedAssigned:
`i = 4; while (assignedComObjectsNb >> i): divisionCounter += 1` -- the shift
amount `i` is never changed inside the loop, so the condition is invariant;
`fuel` bounds the number of iterations the model runs. -/
def divisionCounterLoop (nb counter fuel : Nat) : Option Nat :=
  match fuel with
  | 0 => none
  | fuel + 1 =>
    if nb >>> 4 = 0 then some counter
    else divisionCounterLoop nb (counter + 1) fuel

/-- The binary-narrowing loop of isAddressedAssigned, run `divisionCounter`
times over (searchIndexStart, searchIndexStop, searchIndexRange); the stop
index may go below zero in Python, hence `Int`.  A `None` table cell used as
a list index raises. -/
def narrowLoop (objs : List KnxComObject) (table : List (Option Nat))
    (addr : Nat) : Nat → Nat × Int × Nat → Option (Nat × Int × Nat)
  | 0, st => some st
  | dc + 1, (start, stop, rng) => do
    let rng' := rng >>> 1
    let cell ← table.get? (start + rng')
    let tidx ← cell
    let o ← objs.get? tidx
    if addr ≥ o.addr then narrowLoop objs table addr dc (start + rng', stop, rng')
    else narrowLoop objs table addr dc (start, stop - rng', rng')

/-- The final scan `for i in range(searchIndexStart, searchIndexStop)` of
isAddressedAssigned: on an address match Python returns True and publishes
the index; the in-loop `i > searchIndexStop` test returns False; falling off
the loop returns Python None (the first component `none`). -/
def searchLoop (objs : List KnxComObject) (table : List (Option Nat))
    (addr : Nat) : List Nat → Int → Option (Option Bool × Option Nat)
  | [], _ => some (none, none)
  | i :: rest, stop => do
    let cell ← table.get? i
    let tidx ← cell
    let o ← objs.get? tidx
    if o.addr = addr then some (some true, some tidx)
    else if (i : Int) > stop then some (some false, none)
    else searchLoop objs table addr rest stop

/-- KnxTPUart.isAddressedAssigned on the attached state (the com-object list,
the ordered index table and `_assignedComObjectsNb`).  The result pairs the
Python return value (True / False / fall-off None) with the published
addressed-com-object index; the outer `Option` is an exception or exhausted
fuel for the non-terminating halving loop. -/
def isAddressedAssigned (objs : List KnxComObject) (table : List (Option Nat))
    (nb addr fuel : Nat) : Option (Option Bool × Option Nat) :=
  if nb = 0 then some (some false, none)
  else do
    let dc ← divisionCounterLoop nb 0 fuel
    let st ← narrowLoop objs table addr dc (0, (nb : Int) - 1, nb)
    searchLoop objs table addr
      (List.range' st.1 (st.2.1 - (st.1 : Int)).toNat) st.2.1

/-- A single C-flagged com object with group address 5. -/
def c4Obj : KnxComObject := mkKnxComObject 5 9 KNX_COM_OBJ_C_INDICATOR 1

/-- C4: attaching the single C-flagged object with address 5 yields count 1
and table [0], yet isAddressedAssigned at the matching address 5 returns
Python None (falsy) and publishes no index: the final scan runs
`for i in range(searchIndexStart, searchIndexStop)` with start = stop = 0,
an empty range, so the one matching object is never examined, contradicting
the claimed true-on-match equivalence. -/
theorem single_assigned_address_not_found :
    attachComObjectsList [c4Obj] 1 = some (1, some [some 0]) ∧
      isAddressedAssigned [c4Obj] [some 0] 1 5 9 = some (none, none) := by
  refine ⟨by decide, by decide⟩

/-- Two C-flagged com objects with ascending addresses 3 and 5. -/
def c5Objs : List KnxComObject :=
  [mkKnxComObject 3 9 KNX_COM_OBJ_C_INDICATOR 1,
   mkKnxComObject 5 9 KNX_COM_OBJ_C_INDICATOR 1]

/-- The spec's ten C-flagged objects with ascending group addresses. -/
def c5ObjsTen : List KnxComObject :=
  [0x11, 0x22, 0x33, 0x40, 0x55, 0x60, 0x77, 0x80, 0x99, 0xAA].map
    (fun a => mkKnxComObject a 9 KNX_COM_OBJ_C_INDICATOR 1)

/-- C5: after attaching two C-flagged objects with ascending addresses [3, 5]
the ordered index table is [some 1, none] -- position 0 points at the
address-5 object and position 1 was never assigned (`minMin` jumps past every
address once `foundMin` has been reset) -- and for the spec's ten ascending
addresses the table is [some 9, none, ...]: in neither case a permutation of
the C-flagged indices sorted ascending by group address. -/
theorem orderedIndexTable_not_sorted_permutation :
    attachComObjectsList c5Objs 2 = some (2, some [some 1, none]) ∧
      attachComObjectsList c5ObjsTen 10 =
        some (10, some (some 9 :: List.replicate 9 none)) := by
  refine ⟨by decide, by decide⟩

/-- C10: with sixteen assigned com objects the halving-count loop of
isAddressedAssigned never terminates: `16 >> 4 = 1` is truthy and the shift
amount is never incremented, so the loop body runs for every amount of fuel. -/
theorem divisionCounterLoop_diverges_at_sixteen :
    ∀ (fuel counter : Nat), divisionCounterLoop 16 counter fuel = none
  | 0, _ => rfl
  | fuel + 1, counter => by
    have h : ¬((16 : Nat) >>> 4 = 0) := by decide
    simp only [divisionCounterLoop, if_neg h]
    exact divisionCounterLoop_diverges_at_sixteen fuel (counter + 1)

/-! ## KnxTelegram.py: the class-level `_telegram` buffer (heap view)

`_telegram = [None] * 23` sits in the class body, so it is evaluated once
when the class object is created; the methods only ever assign into the list
(`self._telegram[i] = ...`), never rebind the attribute, so attribute lookup
on every instance resolves to the one class-level list.  The heap holds the
allocated list objects; the class attribute is the cell at address 0. -/

abbrev Heap := List (List Nat)

/-- An instance's view of its buffer: the heap address its `_telegram`
attribute resolves to. -/
structure KnxTelegramRef where
  bufAddr : Nat
  deriving Repr, DecidableEq

/-- The heap address of the class attribute `KnxTelegram._telegram`. -/
def knxTelegramClassAddr : Nat := 0

def heapBuf (h : Heap) (t : KnxTelegramRef) : List Nat := h.getD t.bufAddr []

def heapSetBuf (h : Heap) (t : KnxTelegramRef) (b : List Nat) : Heap :=
  h.set t.bufAddr b

def clearTelegramH (h : Heap) (t : KnxTelegramRef) : Heap :=
  heapSetBuf h t (clearTelegram (heapBuf h t))

/-- KnxTelegram(): the fresh instance's `_telegram` lookup finds the class
attribute, so the returned reference aliases the class cell, which __init__
immediately clears. -/
def newKnxTelegram (h : Heap) : KnxTelegramRef × Heap :=
  (⟨knxTelegramClassAddr⟩, clearTelegramH h ⟨knxTelegramClassAddr⟩)

def writeRawByteH (h : Heap) (t : KnxTelegramRef) (data byteIndex : Nat) :
    Heap :=
  heapSetBuf h t ((heapBuf h t).set byteIndex data)

def readRawByteH (h : Heap) (t : KnxTelegramRef) (byteIndex : Nat) : Nat :=
  (heapBuf h t).getD byteIndex 0

/-- KnxTelegram.copy(dest): `dest._telegram[i] = self._telegram[i]` for
`i < self.getTelegramLength()`, each iteration reading the current heap. -/
def copyH (h : Heap) (src dest : KnxTelegramRef) : Heap :=
  (List.range (getTelegramLength (heapBuf h src))).foldl
    (fun h2 i => writeRawByteH h2 dest (readRawByteH h2 src i) i) h

theorem set_getD_self (l : List Nat) (i : Nat) (h : i < l.length) :
    l.set i (l.getD i 0) = l := by
  apply List.ext_getElem?
  intro j
  by_cases hj : i = j
  · subst hj
    simp [List.getElem?_set_eq_of_lt _ h, List.getD_eq_getElem?_getD,
      List.getElem?_eq_getElem h]
  · simp [List.getElem?_set_ne hj]

theorem length_foldl_clearStep (l : List Nat) :
    ∀ (t : List Nat), (l.foldl clearStep t).length = t.length := by
  induction l with
  | nil => intro t; rfl
  | cons i rest ih =>
    intro t
    rw [List.foldl_cons, ih]
    simp [clearStep]

theorem length_clearTelegram (t : List Nat) :
    (clearTelegram t).length = t.length :=
  length_foldl_clearStep _ t

theorem getD_set_same {α} (l : List α) (i : Nat) (v d : α) (h : i < l.length) :
    (l.set i v).getD i d = v := by
  simp [List.getD_eq_getElem?_getD, List.getElem?_set_eq_of_lt _ h]

theorem list_set_getD_self {α} (l : List α) (i : Nat) (d : α)
    (h : i < l.length) : l.set i (l.getD i d) = l := by
  apply List.ext_getElem?
  intro j
  by_cases hj : i = j
  · subst hj
    simp [List.getElem?_set_eq_of_lt _ h, List.getD_eq_getElem?_getD,
      List.getElem?_eq_getElem h]
  · simp [List.getElem?_set_ne hj]

theorem getTelegramLength_le (t : List Nat) : getTelegramLength t ≤ 23 := by
  have h : t.getD 5 0 &&& ROUTING_FIELD_PAYLOAD_LENGTH_MASK ≤ 15 :=
    Nat.and_le_right
  simp only [getTelegramLength, getPayloadLength, KNX_TELEGRAM_LENGTH_OFFSET]
  omega

/-- Copying a telegram into itself writes every byte onto itself, leaving the
heap unchanged. -/
theorem copyH_self (h : Heap) (hh : 0 < h.length)
    (hl : (h.getD 0 []).length = 23) : copyH h ⟨0⟩ ⟨0⟩ = h := by
  unfold copyH
  have key : ∀ (l : List Nat), (∀ j ∈ l, j < 23) →
      l.foldl (fun h2 i => writeRawByteH h2 ⟨0⟩ (readRawByteH h2 ⟨0⟩ i) i) h
        = h := by
    intro l
    induction l with
    | nil => intro _; rfl
    | cons a rest ih =>
      intro hmem
      rw [List.foldl_cons]
      have hstep : writeRawByteH h ⟨0⟩ (readRawByteH h ⟨0⟩ a) a = h := by
        unfold writeRawByteH readRawByteH heapBuf heapSetBuf
        rw [list_set_getD_self _ _ _ (by rw [hl]; exact hmem a (by simp))]
        exact list_set_getD_self h 0 [] hh
      rw [hstep]
      exact ih (fun j hj => hmem j (by simp [hj]))
  apply key
  intro j hj
  have hjlt := List.mem_range.mp hj
  have := getTelegramLength_le (heapBuf h ⟨0⟩)
  omega

/-- C9: every KnxTelegram instance aliases the single class-level 23-byte
buffer.  Over any heap whose class cell holds a 23-byte list: constructing
two telegrams returns the same reference, the second construction has cleared
the buffer the first one sees, a raw byte written through the first instance
is read back through the second at the same index, and copying the first
telegram into the second is a self-copy that leaves the heap unchanged. -/
theorem telegram_instances_share_one_buffer (h h2 : Heap)
    (t1 t2 : KnxTelegramRef) (d i : Nat) (hi : i < 23)
    (hlen : (h.getD 0 []).length = 23)
    (ht1 : t1 = (newKnxTelegram h).1)
    (ht2 : t2 = (newKnxTelegram (newKnxTelegram h).2).1)
    (hh2 : h2 = (newKnxTelegram (newKnxTelegram h).2).2) :
    t1 = t2 ∧
      heapBuf h2 t1 = clearTelegram (heapBuf (newKnxTelegram h).2 t1) ∧
      readRawByteH (writeRawByteH h2 t1 d i) t2 i = d ∧
      copyH h2 t1 t2 = h2 := by
  subst ht1 ht2 hh2
  have hpos : 0 < h.length := by
    cases h with
    | nil => simp at hlen
    | cons a rest => simp
  refine ⟨rfl, ?_, ?_, ?_⟩
  · simp only [newKnxTelegram, clearTelegramH, heapSetBuf, heapBuf,
      knxTelegramClassAddr]
    exact getD_set_same _ _ _ _ (by simpa using hpos)
  · simp only [newKnxTelegram, clearTelegramH, heapSetBuf, heapBuf,
      knxTelegramClassAddr, writeRawByteH, readRawByteH]
    rw [getD_set_same _ _ _ _ (by simpa using hpos)]
    apply getD_set_same
    rw [getD_set_same _ _ _ _ (by simpa using hpos), length_clearTelegram,
      getD_set_same _ _ _ _ (by simpa using hpos), length_clearTelegram, hlen]
    exact hi
  · apply copyH_self
    · simpa [newKnxTelegram, clearTelegramH, heapSetBuf] using hpos
    · simp only [newKnxTelegram, clearTelegramH, heapSetBuf, heapBuf,
        knxTelegramClassAddr]
      rw [getD_set_same _ _ _ _ (by simpa using hpos), length_clearTelegram,
        getD_set_same _ _ _ _ (by simpa using hpos), length_clearTelegram,
        hlen]

/-- Witness for C9 on the one-cell heap holding the 23-byte zero buffer. -/
theorem telegram_instances_share_one_buffer_witness :
    (⟨0⟩ : KnxTelegramRef) = (⟨0⟩ : KnxTelegramRef) ∧
      heapBuf (newKnxTelegram (newKnxTelegram [List.replicate 23 0]).2).2
          ⟨0⟩ =
        clearTelegram
          (heapBuf (newKnxTelegram [List.replicate 23 0]).2 ⟨0⟩) ∧
      readRawByteH
          (writeRawByteH
            (newKnxTelegram (newKnxTelegram [List.replicate 23 0]).2).2
            ⟨0⟩ 99 4) ⟨0⟩ 4 = 99 ∧
      copyH (newKnxTelegram (newKnxTelegram [List.replicate 23 0]).2).2
          ⟨0⟩ ⟨0⟩ =
        (newKnxTelegram (newKnxTelegram [List.replicate 23 0]).2).2 := by
  have h := telegram_instances_share_one_buffer [List.replicate 23 0]
    (newKnxTelegram (newKnxTelegram [List.replicate 23 0]).2).2
    ⟨0⟩ ⟨0⟩ 99 4 (by decide) (by decide) rfl rfl rfl
  simpa using h

end Knx
